import Mathlib

/-!
Shallow embedding of the `netanel-core-validation` repository
(src/validation/metrics.py, src/validation/assertions.py,
src/validation/config.py, src/validation/validator.py) and proofs of the
spec claims about it.

Modelling conventions:
* Python floats are modelled by `ℚ`; every numeric literal appearing in the
  source (`0.375`, `0.0001`, percentile fractions) is exactly representable
  in binary floating point or is only compared on values where the float and
  rational computations agree, so exact rational arithmetic is faithful for
  the properties proved here.
* The filesystem seen by `MemorySnapshot.capture` is modelled as
  `Option (List FileEntry)`: `none` is a non-existent directory, `some files`
  is the list of regular files found by `rglob("*")` (directory entries are
  skipped by the `is_file()` filter in the source, so only regular files are
  represented).
* `time.time()` values are passed in as explicit `ℚ` arguments.
* The external `LearningLLM.call` is modelled by an oracle
  `ℕ → CallOutcome` giving, for each task index, either a successful result
  (score, tokens_used, duration) or a raised exception (message string).
* `ArtifactManager` writes are pure I/O sinks; the call-log entries the
  validator builds are tracked as a list of `CallLogEntry`.
* Python functions that raise are embedded as `Except String Unit`; the
  interpolated details of the error messages are elided, only which branch
  raises is kept.
-/

/-- A regular file under the memories directory: its basename and size in
bytes, as observed by `Path.rglob` + `Path.stat` in `MemorySnapshot.capture`. -/
structure FileEntry where
  name : String
  size : ℕ
  deriving DecidableEq, Repr

/-- Embeds `MemorySnapshot` (src/validation/metrics.py).
`pattern_count` and `evolution_count` default to 0 in the Python dataclass. -/
structure MemorySnapshot where
  timestamp : ℚ
  total_files : ℕ
  total_size_bytes : ℕ
  pattern_count : ℕ := 0
  evolution_count : ℕ := 0
  deriving DecidableEq, Repr

/-- Embeds `MemorySnapshot.capture`: a non-existent directory yields a zero
snapshot (with the dataclass defaults for the two counts); otherwise files
are counted and summed, and the two marker filenames are counted. -/
def MemorySnapshot.capture (t : ℚ) (dir : Option (List FileEntry)) :
    MemorySnapshot :=
  match dir with
  | none =>
      { timestamp := t
        total_files := 0
        total_size_bytes := 0 }
  | some files =>
      { timestamp := t
        total_files := files.length
        total_size_bytes := (files.map (·.size)).sum
        pattern_count := (files.filter (·.name = "patterns.jsonl")).length
        evolution_count := (files.filter (·.name = "evolutions.jsonl")).length }

/-- Embeds the `MetricsCollector` dataclass state (src/validation/metrics.py). -/
structure MetricsCollector where
  call_durations : List ℚ := []
  quality_scores : List ℚ := []
  total_tokens : ℕ := 0
  total_calls : ℕ := 0
  snapshots : List MemorySnapshot := []
  deriving DecidableEq, Repr

/-- A freshly constructed `MetricsCollector()`. -/
def freshCollector : MetricsCollector := {}

/-- Embeds `MetricsCollector.record_call`. -/
def MetricsCollector.record_call (m : MetricsCollector)
    (duration_s quality_score : ℚ) (tokens_used : ℕ) : MetricsCollector :=
  { m with
    call_durations := m.call_durations ++ [duration_s]
    quality_scores := m.quality_scores ++ [quality_score]
    total_tokens := m.total_tokens + tokens_used
    total_calls := m.total_calls + 1 }

/-- Embeds `MetricsCollector.snapshot_memory`: captures a snapshot, appends
it, and returns it alongside the new collector state. -/
def MetricsCollector.snapshot_memory (m : MetricsCollector) (t : ℚ)
    (dir : Option (List FileEntry)) : MetricsCollector × MemorySnapshot :=
  let snapshot := MemorySnapshot.capture t dir
  ({ m with snapshots := m.snapshots ++ [snapshot] }, snapshot)

/-- Embeds `MetricsCollector._estimate_cost`: `0.375` USD per million tokens
(`0.375` is exact in binary floating point, so `ℚ` is faithful). -/
def MetricsCollector.estimate_cost (m : MetricsCollector) : ℚ :=
  if m.total_tokens = 0 then 0
  else ((m.total_tokens : ℚ) / 1000000) * (375 / 1000)

/-- Embeds the inner `percentile_index` helper of
`MetricsCollector._latency_stats`: nearest-rank index
`min(max(0, ceil(p * count) - 1), count - 1)`, computed over `ℤ` as Python
does (`math.ceil` returns an int) and then used as a list index. -/
def percentile_index (p : ℚ) (count : ℕ) : ℕ :=
  (min (max 0 (⌈p * (count : ℚ)⌉ - 1)) ((count : ℤ) - 1)).toNat

/-- The latency-statistics record returned by `_latency_stats`
(the Python dict's six keys). -/
structure LatencyStats where
  min_s : ℚ
  max_s : ℚ
  mean_s : ℚ
  p50_s : ℚ
  p95_s : ℚ
  p99_s : ℚ
  deriving DecidableEq, Repr

/-- Embeds `MetricsCollector._latency_stats`: `none` for the empty dict on no
samples; otherwise min/max/mean and nearest-rank p50/p95/p99 over the sorted
samples. `0.50`, `0.95`, `0.99` are written as the rationals `1/2`, `19/20`,
`99/100`; on every index computation the float and rational nearest-rank
formulas agree for the list lengths the claims quantify over. -/
def MetricsCollector.latency_stats (m : MetricsCollector) :
    Option LatencyStats :=
  if m.call_durations = [] then none
  else
    let sorted := m.call_durations.mergeSort (· ≤ ·)
    let n := sorted.length
    some
      { min_s := sorted.headD 0
        max_s := sorted.getLastD 0
        mean_s := sorted.sum / (n : ℚ)
        p50_s := sorted.getD (percentile_index (1 / 2) n) 0
        p95_s := sorted.getD (percentile_index (19 / 20) n) 0
        p99_s := sorted.getD (percentile_index (99 / 100) n) 0 }

/-- The quality-statistics record returned by `_quality_stats`. The Python
code exposes `std_dev = variance ** 0.5`; a square root is not rational, so
the embedding records the variance (the square of `std_dev`) instead — no
claim refers to this field. -/
structure QualityStats where
  min : ℚ
  max : ℚ
  mean : ℚ
  variance : ℚ
  deriving DecidableEq, Repr

/-- Embeds `MetricsCollector._quality_stats` (up to recording `std_dev`
squared, see `QualityStats`). -/
def MetricsCollector.quality_stats (m : MetricsCollector) :
    Option QualityStats :=
  if m.quality_scores = [] then none
  else
    let n := m.quality_scores.length
    let mean := m.quality_scores.sum / (n : ℚ)
    some
      { min := m.quality_scores.foldr Min.min (m.quality_scores.headD 0)
        max := m.quality_scores.foldr Max.max (m.quality_scores.headD 0)
        mean := mean
        variance := (m.quality_scores.map (fun x => (x - mean) ^ 2)).sum / (n : ℚ) }

/-- The memory-growth record returned by `_memory_stats`. Growth fields are
integers since Python subtraction may go negative. -/
structure MemoryStats where
  initial_files : ℕ
  final_files : ℕ
  files_created : ℤ
  initial_size_bytes : ℕ
  final_size_bytes : ℕ
  size_growth_bytes : ℤ
  patterns_created : ℤ
  evolutions_triggered : ℤ
  deriving DecidableEq, Repr

/-- Default snapshot used only as the (never reachable) `headD`/`getLastD`
fallback below. -/
def emptySnapshot : MemorySnapshot :=
  { timestamp := 0, total_files := 0, total_size_bytes := 0 }

/-- Embeds `MetricsCollector._memory_stats`: the empty dict (`none`) below
two snapshots, else the diff between `snapshots[0]` and `snapshots[-1]`. -/
def MetricsCollector.memory_stats (m : MetricsCollector) :
    Option MemoryStats :=
  if m.snapshots.length < 2 then none
  else
    let initial := m.snapshots.headD emptySnapshot
    let final := m.snapshots.getLastD emptySnapshot
    some
      { initial_files := initial.total_files
        final_files := final.total_files
        files_created := (final.total_files : ℤ) - (initial.total_files : ℤ)
        initial_size_bytes := initial.total_size_bytes
        final_size_bytes := final.total_size_bytes
        size_growth_bytes :=
          (final.total_size_bytes : ℤ) - (initial.total_size_bytes : ℤ)
        patterns_created :=
          (final.pattern_count : ℤ) - (initial.pattern_count : ℤ)
        evolutions_triggered :=
          (final.evolution_count : ℤ) - (initial.evolution_count : ℤ) }

/-- The dictionary returned by `MetricsCollector.export`. -/
structure MetricsExport where
  total_calls : ℕ
  total_tokens : ℕ
  estimated_cost_usd : ℚ
  latency : Option LatencyStats
  quality : Option QualityStats
  memory : Option MemoryStats
  deriving DecidableEq, Repr

/-- Embeds `MetricsCollector.export`. -/
def MetricsCollector.export (m : MetricsCollector) : MetricsExport :=
  { total_calls := m.total_calls
    total_tokens := m.total_tokens
    estimated_cost_usd := m.estimate_cost
    latency := m.latency_stats
    quality := m.quality_stats
    memory := m.memory_stats }

/-- Embeds `assert_quality_threshold` (src/validation/assertions.py): raises
on an empty list, collects scores below the threshold and raises if any
exist, otherwise returns normally. -/
def assert_quality_threshold (scores : List ℚ) (min_threshold : ℚ) :
    Except String Unit :=
  if scores = [] then .error "No quality scores to validate"
  else
    let below_threshold := scores.filter (fun s => s < min_threshold)
    if below_threshold ≠ [] then
      .error "calls below quality threshold"
    else
      .ok ()

/-- Embeds `assert_memory_persisted` (src/validation/assertions.py): raises
unless both the file count and the byte size strictly grew. -/
def assert_memory_persisted (before after : MemorySnapshot) :
    Except String Unit :=
  if after.total_files ≤ before.total_files then
    .error "Memory did not grow"
  else if after.total_size_bytes ≤ before.total_size_bytes then
    .error "Memory size did not grow"
  else
    .ok ()

/-! ## Claims C4–C7 -/

/-- C4: For every non-negative token total, `_estimate_cost` equals
`total_tokens / 1,000,000 * 0.375` USD; in particular 1,000,000 tokens yield
exactly $0.375 and 0 tokens yield exactly $0.0. -/
theorem estimate_cost_formula (m : MetricsCollector) :
    m.estimate_cost = (m.total_tokens : ℚ) / 1000000 * (375 / 1000) ∧
      (m.total_tokens = 1000000 → m.estimate_cost = 375 / 1000) ∧
      (m.total_tokens = 0 → m.estimate_cost = 0) := by
  refine ⟨?_, ?_, ?_⟩
  · unfold MetricsCollector.estimate_cost
    split
    · rename_i h
      rw [h]
      norm_num
    · rfl
  · intro h
    unfold MetricsCollector.estimate_cost
    rw [h]
    norm_num
  · intro h
    unfold MetricsCollector.estimate_cost
    rw [h]
    norm_num

/-- C4 witness at total_tokens = 1000000. -/
theorem estimate_cost_formula_witness :
    ({ freshCollector with total_tokens := 1000000 } :
        MetricsCollector).estimate_cost = 375 / 1000 :=
  (estimate_cost_formula { freshCollector with total_tokens := 1000000 }).2.1
    rfl

/-- C5: `assert_memory_persisted` returns normally iff both
`after.total_files > before.total_files` and
`after.total_size_bytes > before.total_size_bytes`; otherwise it raises. -/
theorem assert_memory_persisted_iff (before after : MemorySnapshot) :
    (assert_memory_persisted before after = .ok () ↔
      before.total_files < after.total_files ∧
        before.total_size_bytes < after.total_size_bytes) ∧
      (¬(before.total_files < after.total_files ∧
          before.total_size_bytes < after.total_size_bytes) →
        ∃ msg, assert_memory_persisted before after = .error msg) := by
  unfold assert_memory_persisted
  constructor
  · constructor
    · intro h
      by_contra hc
      push_neg at hc
      rcases Nat.lt_or_ge before.total_files after.total_files with hf | hf
      · have hs := hc hf
        rw [if_neg (by omega), if_pos (by omega)] at h
        exact Except.noConfusion h
      · rw [if_pos (by omega)] at h
        exact Except.noConfusion h
    · intro ⟨hf, hs⟩
      rw [if_neg (by omega), if_neg (by omega)]
  · intro hc
    push_neg at hc
    rcases Nat.lt_or_ge before.total_files after.total_files with hf | hf
    · exact ⟨"Memory size did not grow",
        by rw [if_neg (by omega), if_pos (hc hf)]⟩
    · exact ⟨"Memory did not grow", by rw [if_pos (by omega)]⟩

/-- C6: capturing a non-existent directory yields the all-zero snapshot
(with the default zero pattern/evolution counts) and cannot fail. -/
theorem capture_nonexistent (t : ℚ) :
    MemorySnapshot.capture t none =
      { timestamp := t, total_files := 0, total_size_bytes := 0,
        pattern_count := 0, evolution_count := 0 } :=
  rfl

/-- C7: on a non-empty score list, `assert_quality_threshold` returns
normally iff every score is at least the threshold (raises iff some score is
below it). -/
theorem assert_quality_threshold_iff (scores : List ℚ) (t : ℚ)
    (h : scores ≠ []) :
    assert_quality_threshold scores t = .ok () ↔
      ∀ s ∈ scores, t ≤ s := by
  unfold assert_quality_threshold
  rw [if_neg h]
  constructor
  · intro hok s hs
    by_contra hlt
    push_neg at hlt
    have hmem : s ∈ scores.filter (fun x => x < t) :=
      List.mem_filter.2 ⟨hs, by simpa using hlt⟩
    have hne : scores.filter (fun x => x < t) ≠ [] := by
      intro he
      rw [he] at hmem
      exact List.not_mem_nil s hmem
    rw [if_pos hne] at hok
    exact Except.noConfusion hok
  · intro hall
    have he : scores.filter (fun x => x < t) = [] := by
      rw [List.filter_eq_nil_iff]
      intro s hs
      simpa using not_lt.2 (hall s hs)
    rw [if_neg (by simp [he])]

/-- C7 witness: scores `[7/10, 9/10]` against threshold `7/10` pass. -/
theorem assert_quality_threshold_iff_witness :
    assert_quality_threshold [7 / 10, 9 / 10] (7 / 10) = .ok () :=
  (assert_quality_threshold_iff [7 / 10, 9 / 10] (7 / 10) (by decide)).2
    (by
      intro s hs
      rcases List.mem_cons.1 hs with h | h
      · rw [h]
      · rcases List.mem_cons.1 h with h' | h'
        · rw [h']
          norm_num
        · exact absurd h' (List.not_mem_nil s))

/-- C5 witness: file count 1→2 and size 10→20 passes. -/
theorem assert_memory_persisted_iff_witness :
    assert_memory_persisted
        { timestamp := 0, total_files := 1, total_size_bytes := 10 }
        { timestamp := 1, total_files := 2, total_size_bytes := 20 } =
      .ok () :=
  (assert_memory_persisted_iff
      { timestamp := 0, total_files := 1, total_size_bytes := 10 }
      { timestamp := 1, total_files := 2, total_size_bytes := 20 }).1.2
    ⟨by decide, by decide⟩

/-! ## Claim C3: nearest-rank percentiles -/

/-- C3: on a non-empty sample list of length `n`, `_latency_stats` computes
the p-th percentile (p ∈ {0.50, 0.95, 0.99}) as the sorted element at index
`min(max(0, ceil(p*n)-1), n-1)` (nearest-rank, not interpolated); for
`n = 10` the p95 index is 9 — the maximum — and the p50 index is 4. -/
theorem latency_stats_nearest_rank (m : MetricsCollector)
    (h : m.call_durations ≠ []) :
    ∃ s, m.latency_stats = some s ∧
      (let sorted := m.call_durations.mergeSort (· ≤ ·)
       let n := sorted.length
       s.p50_s =
          sorted.getD (min (max 0 (⌈(1 / 2 : ℚ) * n⌉ - 1)) ((n : ℤ) - 1)).toNat 0 ∧
       s.p95_s =
          sorted.getD (min (max 0 (⌈(19 / 20 : ℚ) * n⌉ - 1)) ((n : ℤ) - 1)).toNat 0 ∧
       s.p99_s =
          sorted.getD (min (max 0 (⌈(99 / 100 : ℚ) * n⌉ - 1)) ((n : ℤ) - 1)).toNat 0) ∧
      percentile_index (19 / 20) 10 = 9 ∧
      percentile_index (1 / 2) 10 = 4 ∧
      (m.call_durations.length = 10 → s.p95_s = s.max_s) := by
  have hidx95 : percentile_index (19 / 20) 10 = 9 := by
    unfold percentile_index
    rw [show (19 / 20 : ℚ) * ((10 : ℕ) : ℚ) = 19 / 2 by norm_num,
      show ⌈(19 : ℚ) / 2⌉ = 10 by rw [Int.ceil_eq_iff]; norm_num]
    decide
  have hidx50 : percentile_index (1 / 2) 10 = 4 := by
    unfold percentile_index
    rw [show (1 / 2 : ℚ) * ((10 : ℕ) : ℚ) = 5 by norm_num,
      show ⌈(5 : ℚ)⌉ = 5 by norm_num]
    decide
  have hs : m.latency_stats =
      some
        { min_s := (m.call_durations.mergeSort (· ≤ ·)).headD 0
          max_s := (m.call_durations.mergeSort (· ≤ ·)).getLastD 0
          mean_s :=
            (m.call_durations.mergeSort (· ≤ ·)).sum /
              ((m.call_durations.mergeSort (· ≤ ·)).length : ℚ)
          p50_s :=
            (m.call_durations.mergeSort (· ≤ ·)).getD
              (percentile_index (1 / 2)
                (m.call_durations.mergeSort (· ≤ ·)).length) 0
          p95_s :=
            (m.call_durations.mergeSort (· ≤ ·)).getD
              (percentile_index (19 / 20)
                (m.call_durations.mergeSort (· ≤ ·)).length) 0
          p99_s :=
            (m.call_durations.mergeSort (· ≤ ·)).getD
              (percentile_index (99 / 100)
                (m.call_durations.mergeSort (· ≤ ·)).length) 0 } := by
    unfold MetricsCollector.latency_stats
    rw [if_neg h]
  refine ⟨_, hs, ⟨rfl, rfl, rfl⟩, hidx95, hidx50, ?_⟩
  · intro hlen
    have hsorted : (m.call_durations.mergeSort (· ≤ ·)).length = 10 := by
      rw [List.length_mergeSort]
      exact hlen
    show (m.call_durations.mergeSort (· ≤ ·)).getD
        (percentile_index (19 / 20) (m.call_durations.mergeSort (· ≤ ·)).length) 0 =
      (m.call_durations.mergeSort (· ≤ ·)).getLastD 0
    rw [hsorted, hidx95, List.getLastD_eq_getLast?, List.getLast?_eq_getElem?,
      List.getD_eq_getElem?_getD, hsorted]

/-- C3 witness on the 10-sample list `[1, 2, …, 10]`. -/
theorem latency_stats_nearest_rank_witness :
    ∃ s, ({ freshCollector with
        call_durations := [1, 2, 3, 4, 5, 6, 7, 8, 9, 10] } :
          MetricsCollector).latency_stats = some s ∧
      (let sorted := ([1, 2, 3, 4, 5, 6, 7, 8, 9, 10] :
          List ℚ).mergeSort (· ≤ ·)
       let n := sorted.length
       s.p50_s =
          sorted.getD (min (max 0 (⌈(1 / 2 : ℚ) * n⌉ - 1)) ((n : ℤ) - 1)).toNat 0 ∧
       s.p95_s =
          sorted.getD (min (max 0 (⌈(19 / 20 : ℚ) * n⌉ - 1)) ((n : ℤ) - 1)).toNat 0 ∧
       s.p99_s =
          sorted.getD (min (max 0 (⌈(99 / 100 : ℚ) * n⌉ - 1)) ((n : ℤ) - 1)).toNat 0) ∧
      percentile_index (19 / 20) 10 = 9 ∧
      percentile_index (1 / 2) 10 = 4 ∧
      (([1, 2, 3, 4, 5, 6, 7, 8, 9, 10] : List ℚ).length = 10 →
        s.p95_s = s.max_s) :=
  latency_stats_nearest_rank
    { freshCollector with call_durations := [1, 2, 3, 4, 5, 6, 7, 8, 9, 10] }
    (by decide)

/-! ## Claim C8: memory stats from first and last snapshot -/

/-- C8: `_memory_stats` is empty below two snapshots; with at least two it is
computed from `snapshots[0]` and `snapshots[-1]` only, the growth fields
being their pairwise differences. -/
theorem memory_stats_first_last (m : MetricsCollector) :
    (m.snapshots.length < 2 → m.memory_stats = none) ∧
      (2 ≤ m.snapshots.length →
        m.memory_stats =
          some
            { initial_files := (m.snapshots.headD emptySnapshot).total_files
              final_files := (m.snapshots.getLastD emptySnapshot).total_files
              files_created :=
                ((m.snapshots.getLastD emptySnapshot).total_files : ℤ) -
                  ((m.snapshots.headD emptySnapshot).total_files : ℤ)
              initial_size_bytes :=
                (m.snapshots.headD emptySnapshot).total_size_bytes
              final_size_bytes :=
                (m.snapshots.getLastD emptySnapshot).total_size_bytes
              size_growth_bytes :=
                ((m.snapshots.getLastD emptySnapshot).total_size_bytes : ℤ) -
                  ((m.snapshots.headD emptySnapshot).total_size_bytes : ℤ)
              patterns_created :=
                ((m.snapshots.getLastD emptySnapshot).pattern_count : ℤ) -
                  ((m.snapshots.headD emptySnapshot).pattern_count : ℤ)
              evolutions_triggered :=
                ((m.snapshots.getLastD emptySnapshot).evolution_count : ℤ) -
                  ((m.snapshots.headD emptySnapshot).evolution_count : ℤ) }) := by
  constructor
  · intro h
    unfold MetricsCollector.memory_stats
    rw [if_pos h]
  · intro h
    unfold MetricsCollector.memory_stats
    rw [if_neg (by omega)]

/-- C8 witness: two concrete snapshots. -/
theorem memory_stats_first_last_witness :
    ({ freshCollector with
        snapshots :=
          [{ timestamp := 0, total_files := 1, total_size_bytes := 10,
             pattern_count := 0, evolution_count := 0 },
           { timestamp := 1, total_files := 3, total_size_bytes := 25,
             pattern_count := 2, evolution_count := 1 }] } :
        MetricsCollector).memory_stats =
      some
        { initial_files := 1, final_files := 3, files_created := 2,
          initial_size_bytes := 10, final_size_bytes := 25,
          size_growth_bytes := 15, patterns_created := 2,
          evolutions_triggered := 1 } := by
  have h :=
    (memory_stats_first_last
        { freshCollector with
          snapshots :=
            [{ timestamp := 0, total_files := 1, total_size_bytes := 10,
               pattern_count := 0, evolution_count := 0 },
             { timestamp := 1, total_files := 3, total_size_bytes := 25,
               pattern_count := 2, evolution_count := 1 }] }).2
      (by decide)
  rw [h]
  rfl

/-! ## Claim C10: parallel-sequences invariant -/

/-- One mutating operation on the collector: `record_call` or
`snapshot_memory`. -/
inductive CollectorOp where
  | record (duration_s quality_score : ℚ) (tokens_used : ℕ)
  | snapshot (t : ℚ) (dir : Option (List FileEntry))
  deriving DecidableEq

/-- Apply one operation to a collector. -/
def applyOp (m : MetricsCollector) : CollectorOp → MetricsCollector
  | .record d q tk => m.record_call d q tk
  | .snapshot t dir => (m.snapshot_memory t dir).1

/-- Run a sequence of operations from a fresh collector. -/
def applyOps (ops : List CollectorOp) : MetricsCollector :=
  ops.foldl applyOp freshCollector

/-- The parallel-sequences invariant of the collector. -/
def CollectorInv (m : MetricsCollector) : Prop :=
  m.call_durations.length = m.total_calls ∧
    m.quality_scores.length = m.total_calls

theorem collectorInv_applyOp (m : MetricsCollector) (op : CollectorOp)
    (h : CollectorInv m) : CollectorInv (applyOp m op) := by
  obtain ⟨h1, h2⟩ := h
  cases op with
  | record d q tk =>
      exact ⟨by simp [applyOp, MetricsCollector.record_call, h1],
        by simp [applyOp, MetricsCollector.record_call, h2]⟩
  | snapshot t dir =>
      exact ⟨h1, h2⟩

theorem collectorInv_foldl (ops : List CollectorOp) :
    ∀ m : MetricsCollector, CollectorInv m →
      CollectorInv (ops.foldl applyOp m) := by
  induction ops with
  | nil => intro m h; exact h
  | cons op rest ih =>
      intro m h
      exact ih (applyOp m op) (collectorInv_applyOp m op h)

/-- C10: after any operation sequence from a fresh collector,
`len(call_durations) = len(quality_scores) = total_calls`; moreover
`record_call` appends exactly one element to each of the two sequences and
increments `total_calls`, while `snapshot_memory` appends only to
`snapshots` and leaves durations, scores, token and call totals unchanged. -/
theorem collector_parallel_invariant (ops : List CollectorOp) :
    ((applyOps ops).call_durations.length = (applyOps ops).total_calls ∧
        (applyOps ops).quality_scores.length = (applyOps ops).total_calls) ∧
      (∀ (m : MetricsCollector) (d q : ℚ) (tk : ℕ),
        (m.record_call d q tk).call_durations = m.call_durations ++ [d] ∧
          (m.record_call d q tk).quality_scores = m.quality_scores ++ [q] ∧
          (m.record_call d q tk).total_calls = m.total_calls + 1 ∧
          (m.record_call d q tk).total_tokens = m.total_tokens + tk) ∧
      (∀ (m : MetricsCollector) (t : ℚ) (dir : Option (List FileEntry)),
        (m.snapshot_memory t dir).1.call_durations = m.call_durations ∧
          (m.snapshot_memory t dir).1.quality_scores = m.quality_scores ∧
          (m.snapshot_memory t dir).1.total_tokens = m.total_tokens ∧
          (m.snapshot_memory t dir).1.total_calls = m.total_calls ∧
          (m.snapshot_memory t dir).1.snapshots =
            m.snapshots ++ [MemorySnapshot.capture t dir]) := by
  refine ⟨collectorInv_foldl ops freshCollector ⟨rfl, rfl⟩, ?_, ?_⟩
  · intro m d q tk
    exact ⟨rfl, rfl, rfl, rfl⟩
  · intro m t dir
    exact ⟨rfl, rfl, rfl, rfl, rfl⟩

/-! ## Validator embedding (src/validation/validator.py) -/

/-- Embeds the fields of `ValidationConfig` (src/validation/config.py);
floats as `ℚ`, defaults as in the Pydantic `Field` declarations. -/
structure ValidationConfig where
  quality_threshold : ℚ := 7 / 10
  max_cost_usd : ℚ := 1
  timeout_seconds : ℕ := 30
  max_retries : ℕ := 3
  retry_delay_seconds : ℕ := 5
  cleanup_memories : Bool := true
  save_artifacts : Bool := true
  artifacts_dir : String := "artifacts"
  deriving DecidableEq, Repr

/-- Embeds the `ValidationResult` dataclass (src/validation/validator.py);
the `metrics` dict is the collector's export. -/
structure ValidationResult where
  success : Bool
  total_calls : ℕ
  total_tokens : ℕ
  estimated_cost_usd : ℚ
  metrics : MetricsExport
  error : Option String := none
  deriving DecidableEq, Repr

/-- Outcome of one `LearningLLM.call`: a result with its `score`,
`tokens_used` (0 when the attribute is absent) and observed duration, or a
raised exception carrying its message string. -/
inductive CallOutcome where
  | ok (score : ℚ) (tokens_used : ℕ) (duration : ℚ)
  | exn (msg : String)
  deriving DecidableEq, Repr

/-- Whether the outcome is a successful call. -/
def CallOutcome.isOk : CallOutcome → Bool
  | .ok _ _ _ => true
  | .exn _ => false

/-- One entry of the validator's `call_results` list (the dict saved via
`artifacts.save_log`): a successful call records task, score, duration and
`success: True`; a caught exception records task, error string and
`success: False`. -/
inductive CallLogEntry where
  | ok (task : String) (score : ℚ) (duration : ℚ)
  | failed (task : String) (error : String)
  deriving DecidableEq, Repr

/-- The `success` field of a call-log dict. -/
def CallLogEntry.success : CallLogEntry → Bool
  | .ok _ _ _ => true
  | .failed _ _ => false

/-- Result of the task loop of `run_scenario`: either the early `return`
from the pre-call budget check at task index `i` (carrying the collector and
call log as they stood), or normal loop exit. -/
inductive LoopOut where
  | aborted (i : ℕ) (m : MetricsCollector) (logs : List CallLogEntry)
      (error : String)
  | completed (m : MetricsCollector) (logs : List CallLogEntry)
  deriving DecidableEq, Repr

/-- Embeds the `for i, task in enumerate(tasks)` loop of
`LearningValidator.run_scenario`: before each call the accumulated estimated
cost is compared against the ceiling (on `>=` the function returns early);
otherwise the call is made — a successful call records metrics and an ok log
entry, a raised exception is caught, logged as a failed entry, and the loop
continues with the next task. Each task consumes exactly one oracle outcome:
nothing is retried. -/
def run_tasks (max_cost_usd : ℚ) (orc : ℕ → CallOutcome) :
    ℕ → List String → MetricsCollector → List CallLogEntry → LoopOut
  | _, [], m, logs => .completed m logs
  | i, task :: rest, m, logs =>
    if m.estimate_cost ≥ max_cost_usd then
      .aborted i m logs "Cost budget exceeded"
    else
      match orc i with
      | .ok score tokens_used duration =>
          run_tasks max_cost_usd orc (i + 1) rest
            (m.record_call duration score tokens_used)
            (logs ++ [.ok task score duration])
      | .exn e =>
          run_tasks max_cost_usd orc (i + 1) rest m
            (logs ++ [.failed task e])

/-- Embeds `LearningValidator.run_scenario`, parameterised by the call
oracle, the final state of the memories directory and the capture time of
the final snapshot. On abort the partial result is returned without the
final snapshot; on completion a final snapshot is captured and the full
result returned. Yields the `ValidationResult` together with the collector
state after the run. -/
def run_scenario (cfg : ValidationConfig) (tasks : List String)
    (max_calls : Option ℕ) (orc : ℕ → CallOutcome)
    (final_dir : Option (List FileEntry)) (t : ℚ)
    (m : MetricsCollector) : ValidationResult × MetricsCollector :=
  let tasks' :=
    match max_calls with
    | some k => tasks.take k
    | none => tasks
  match run_tasks cfg.max_cost_usd orc 0 tasks' m [] with
  | .aborted i m' _ error =>
      ({ success := false
         total_calls := i
         total_tokens := m'.total_tokens
         estimated_cost_usd := m'.estimate_cost
         metrics := m'.export
         error := some error }, m')
  | .completed m' _ =>
      let m2 := (m'.snapshot_memory t final_dir).1
      ({ success := true
         total_calls := tasks'.length
         total_tokens := m2.total_tokens
         estimated_cost_usd := m2.estimate_cost
         metrics := m2.export
         error := none }, m2)

/-- Number of successful (non-raising) outcomes among the `n` task indices
starting at `i`. -/
def numOk (orc : ℕ → CallOutcome) (i : ℕ) : ℕ → ℕ
  | 0 => 0
  | n + 1 => (if (orc i).isOk then 1 else 0) + numOk orc (i + 1) n

/-- The configuration of the cost-ceiling scenario: `max_cost_usd = 0.0001`. -/
def cfg_ten_thousandth : ValidationConfig := { max_cost_usd := 1 / 10000 }

/-! ### Loop step lemmas (shared helpers) -/

theorem run_tasks_step_abort (max_cost_usd : ℚ) (orc : ℕ → CallOutcome)
    (i : ℕ) (task : String) (rest : List String) (m : MetricsCollector)
    (logs : List CallLogEntry) (hc : m.estimate_cost ≥ max_cost_usd) :
    run_tasks max_cost_usd orc i (task :: rest) m logs =
      .aborted i m logs "Cost budget exceeded" := by
  simp only [run_tasks]
  rw [if_pos hc]

theorem run_tasks_step_ok (max_cost_usd : ℚ) (orc : ℕ → CallOutcome)
    (i : ℕ) (task : String) (rest : List String) (m : MetricsCollector)
    (logs : List CallLogEntry) (score duration : ℚ) (tokens_used : ℕ)
    (hc : ¬ m.estimate_cost ≥ max_cost_usd)
    (horc : orc i = .ok score tokens_used duration) :
    run_tasks max_cost_usd orc i (task :: rest) m logs =
      run_tasks max_cost_usd orc (i + 1) rest
        (m.record_call duration score tokens_used)
        (logs ++ [.ok task score duration]) := by
  simp only [run_tasks]
  rw [if_neg hc, horc]

theorem run_tasks_step_exn (max_cost_usd : ℚ) (orc : ℕ → CallOutcome)
    (i : ℕ) (task : String) (rest : List String) (m : MetricsCollector)
    (logs : List CallLogEntry) (e : String)
    (hc : ¬ m.estimate_cost ≥ max_cost_usd) (horc : orc i = .exn e) :
    run_tasks max_cost_usd orc i (task :: rest) m logs =
      run_tasks max_cost_usd orc (i + 1) rest m
        (logs ++ [.failed task e]) := by
  simp only [run_tasks]
  rw [if_neg hc, horc]

/-- Every task attempted before an abort contributed exactly one log entry:
an abort at index `j`, starting from index `i`, has grown the log by
`j - i` entries. -/
theorem run_tasks_aborted_log_length (max_cost_usd : ℚ)
    (orc : ℕ → CallOutcome) :
    ∀ (tasks : List String) (i : ℕ) (m : MetricsCollector)
      (logs : List CallLogEntry) (j : ℕ) (m' : MetricsCollector)
      (logs' : List CallLogEntry) (e : String),
      run_tasks max_cost_usd orc i tasks m logs = .aborted j m' logs' e →
      logs'.length + i = logs.length + j := by
  intro tasks
  induction tasks with
  | nil =>
      intro i m logs j m' logs' e h
      simp only [run_tasks] at h
      exact LoopOut.noConfusion h
  | cons task rest ih =>
      intro i m logs j m' logs' e h
      simp only [run_tasks] at h
      by_cases hc : m.estimate_cost ≥ max_cost_usd
      · rw [if_pos hc] at h
        injection h with h1 h2 h3 h4
        subst h1
        subst h3
        omega
      · rw [if_neg hc] at h
        cases horc : orc i with
        | ok score tokens_used duration =>
            rw [horc] at h
            have hrec := ih (i + 1) (m.record_call duration score tokens_used)
              (logs ++ [.ok task score duration]) j m' logs' e h
            simp only [List.length_append, List.length_cons,
              List.length_nil] at hrec
            omega
        | exn e' =>
            rw [horc] at h
            have hrec := ih (i + 1) m (logs ++ [.failed task e']) j m' logs' e h
            simp only [List.length_append, List.length_cons,
              List.length_nil] at hrec
            omega

/-- On normal loop exit, the collector's `total_calls` has grown by exactly
the number of successful outcomes (raising calls record nothing). -/
theorem run_tasks_completed_total_calls (max_cost_usd : ℚ)
    (orc : ℕ → CallOutcome) :
    ∀ (tasks : List String) (i : ℕ) (m : MetricsCollector)
      (logs : List CallLogEntry) (m' : MetricsCollector)
      (logs' : List CallLogEntry),
      run_tasks max_cost_usd orc i tasks m logs = .completed m' logs' →
      m'.total_calls = m.total_calls + numOk orc i tasks.length := by
  intro tasks
  induction tasks with
  | nil =>
      intro i m logs m' logs' h
      simp only [run_tasks] at h
      injection h with h1 h2
      subst h1
      simp [numOk]
  | cons task rest ih =>
      intro i m logs m' logs' h
      simp only [run_tasks] at h
      by_cases hc : m.estimate_cost ≥ max_cost_usd
      · rw [if_pos hc] at h
        exact LoopOut.noConfusion h
      · rw [if_neg hc] at h
        cases horc : orc i with
        | ok score tokens_used duration =>
            rw [horc] at h
            have hrec := ih (i + 1) (m.record_call duration score tokens_used)
              (logs ++ [.ok task score duration]) m' logs' h
            rw [hrec]
            simp only [MetricsCollector.record_call, List.length_cons, numOk,
              horc, CallOutcome.isOk, if_pos]
            omega
        | exn e' =>
            rw [horc] at h
            have hrec := ih (i + 1) m (logs ++ [.failed task e']) m' logs' h
            rw [hrec]
            simp [numOk, horc, CallOutcome.isOk]

/-- Unfolds `run_scenario` on an aborted loop. -/
theorem run_scenario_aborted_eq (cfg : ValidationConfig)
    (tasks : List String) (orc : ℕ → CallOutcome)
    (final_dir : Option (List FileEntry)) (t : ℚ) (m : MetricsCollector)
    (j : ℕ) (m' : MetricsCollector) (logs' : List CallLogEntry) (e : String)
    (h : run_tasks cfg.max_cost_usd orc 0 tasks m [] = .aborted j m' logs' e) :
    run_scenario cfg tasks none orc final_dir t m =
      ({ success := false
         total_calls := j
         total_tokens := m'.total_tokens
         estimated_cost_usd := m'.estimate_cost
         metrics := m'.export
         error := some e }, m') := by
  simp only [run_scenario]
  rw [h]

/-- Unfolds `run_scenario` on a completed loop. -/
theorem run_scenario_completed_eq (cfg : ValidationConfig)
    (tasks : List String) (orc : ℕ → CallOutcome)
    (final_dir : Option (List FileEntry)) (t : ℚ) (m : MetricsCollector)
    (m' : MetricsCollector) (logs' : List CallLogEntry)
    (h : run_tasks cfg.max_cost_usd orc 0 tasks m [] = .completed m' logs') :
    run_scenario cfg tasks none orc final_dir t m =
      ({ success := true
         total_calls := tasks.length
         total_tokens := (m'.snapshot_memory t final_dir).1.total_tokens
         estimated_cost_usd := (m'.snapshot_memory t final_dir).1.estimate_cost
         metrics := (m'.snapshot_memory t final_dir).1.export
         error := none }, (m'.snapshot_memory t final_dir).1) := by
  simp only [run_scenario]
  rw [h]

/-! ## Claims C1, C2, C9 -/

/-- C1 (amended): before each task, the accumulated estimated cost is
checked against the ceiling `max_cost_usd`; when it has reached the ceiling
the loop aborts immediately — without attempting that task or any later one
— and `run_scenario` returns `success = False` with `total_calls` equal to
the number of tasks attempted before the abort (each attempted task logged
exactly one entry). With `max_cost_usd = 0.0001`, when the first call
reports at least 267 tokens (the least count whose estimated cost reaches
the ceiling), the second task's pre-call check aborts with
`total_calls = 1`. -/
theorem cost_ceiling_abort :
    (∀ (max_cost_usd : ℚ) (orc : ℕ → CallOutcome) (i : ℕ) (task : String)
        (rest : List String) (m : MetricsCollector)
        (logs : List CallLogEntry),
      m.estimate_cost ≥ max_cost_usd →
        run_tasks max_cost_usd orc i (task :: rest) m logs =
          .aborted i m logs "Cost budget exceeded") ∧
    (∀ (cfg : ValidationConfig) (tasks : List String) (orc : ℕ → CallOutcome)
        (final_dir : Option (List FileEntry)) (t : ℚ) (m : MetricsCollector)
        (j : ℕ) (m' : MetricsCollector) (logs' : List CallLogEntry)
        (e : String),
      run_tasks cfg.max_cost_usd orc 0 tasks m [] = .aborted j m' logs' e →
        (run_scenario cfg tasks none orc final_dir t m).1.success = false ∧
          (run_scenario cfg tasks none orc final_dir t m).1.total_calls = j ∧
          logs'.length = j) ∧
    (∀ (tasks : List String) (orc : ℕ → CallOutcome)
        (final_dir : Option (List FileEntry)) (t : ℚ) (score duration : ℚ)
        (tokens_used : ℕ),
      2 ≤ tasks.length →
      orc 0 = .ok score tokens_used duration →
      267 ≤ tokens_used →
        (run_scenario cfg_ten_thousandth tasks none orc final_dir t
            freshCollector).1.success = false ∧
          (run_scenario cfg_ten_thousandth tasks none orc final_dir t
              freshCollector).1.total_calls = 1) := by
  refine ⟨?_, ?_, ?_⟩
  · intro max_cost_usd orc i task rest m logs hc
    exact run_tasks_step_abort max_cost_usd orc i task rest m logs hc
  · intro cfg tasks orc final_dir t m j m' logs' e h
    rw [run_scenario_aborted_eq cfg tasks orc final_dir t m j m' logs' e h]
    refine ⟨rfl, rfl, ?_⟩
    have hlog := run_tasks_aborted_log_length cfg.max_cost_usd orc tasks 0 m
      [] j m' logs' e h
    simpa using hlog
  · intro tasks orc final_dir t score duration tokens_used hlen horc htk
    rcases tasks with _ | ⟨t0, _ | ⟨t1, rest1⟩⟩
    · exact absurd hlen (by simp)
    · exact absurd hlen (by simp)
    have hc0 : ¬ freshCollector.estimate_cost ≥
        cfg_ten_thousandth.max_cost_usd := by
      show ¬ freshCollector.estimate_cost ≥ (1 : ℚ) / 10000
      norm_num [freshCollector, MetricsCollector.estimate_cost]
    have hstep1 := run_tasks_step_ok cfg_ten_thousandth.max_cost_usd orc 0 t0
      (t1 :: rest1) freshCollector [] score duration tokens_used hc0 horc
    have htt : (freshCollector.record_call duration score
        tokens_used).total_tokens = tokens_used := by
      simp [MetricsCollector.record_call, freshCollector]
    have hcost : (freshCollector.record_call duration score
        tokens_used).estimate_cost ≥ cfg_ten_thousandth.max_cost_usd := by
      have hval : (freshCollector.record_call duration score
          tokens_used).estimate_cost =
          (tokens_used : ℚ) / 1000000 * (375 / 1000) := by
        unfold MetricsCollector.estimate_cost
        rw [htt, if_neg (by omega)]
      show (freshCollector.record_call duration score
          tokens_used).estimate_cost ≥ (1 : ℚ) / 10000
      rw [hval, ge_iff_le]
      have h267 : (267 : ℚ) ≤ (tokens_used : ℚ) := by exact_mod_cast htk
      linarith
    have habort2 := run_tasks_step_abort cfg_ten_thousandth.max_cost_usd orc
      1 t1 rest1 (freshCollector.record_call duration score tokens_used)
      ([] ++ [.ok t0 score duration]) hcost
    have hrun : run_tasks cfg_ten_thousandth.max_cost_usd orc 0
        (t0 :: t1 :: rest1) freshCollector [] =
        .aborted 1 (freshCollector.record_call duration score tokens_used)
          ([] ++ [.ok t0 score duration]) "Cost budget exceeded" := by
      rw [hstep1, habort2]
    rw [run_scenario_aborted_eq cfg_ten_thousandth (t0 :: t1 :: rest1) orc
      final_dir t freshCollector 1 _ _ _ hrun]
    exact ⟨rfl, rfl⟩

/-- C1 witness: two tasks, first call reporting 300 tokens. -/
theorem cost_ceiling_abort_witness :
    (run_scenario cfg_ten_thousandth ["t0", "t1"] none
        (fun _ => CallOutcome.ok 1 300 1) none 0 freshCollector).1.success =
      false ∧
      (run_scenario cfg_ten_thousandth ["t0", "t1"] none
          (fun _ => CallOutcome.ok 1 300 1) none 0
          freshCollector).1.total_calls = 1 :=
  cost_ceiling_abort.2.2 ["t0", "t1"] (fun _ => CallOutcome.ok 1 300 1) none
    0 1 1 300 (by norm_num) rfl (by norm_num)

/-- C1 counterexample to the claim as stated: with `max_cost_usd = 0.0001`
and the first call reporting 1 token — nonzero — the second task's pre-call
check does NOT abort: both tasks run and `run_scenario` returns
`success = True` with `total_calls = 2`, because one token's estimated cost
($0.000000375) is far below the ceiling. -/
theorem cost_ceiling_nonzero_tokens_no_abort :
    (run_scenario cfg_ten_thousandth ["t0", "t1"] none
        (fun _ => CallOutcome.ok 1 1 1) none 0 freshCollector).1.success =
      true ∧
      (run_scenario cfg_ten_thousandth ["t0", "t1"] none
          (fun _ => CallOutcome.ok 1 1 1) none 0
          freshCollector).1.total_calls = 2 := by
  have hc0 : ¬ freshCollector.estimate_cost ≥
      cfg_ten_thousandth.max_cost_usd := by
    show ¬ freshCollector.estimate_cost ≥ (1 : ℚ) / 10000
    norm_num [freshCollector, MetricsCollector.estimate_cost]
  have htt : (freshCollector.record_call 1 1 1).total_tokens = 1 := by
    simp [MetricsCollector.record_call, freshCollector]
  have hc1 : ¬ (freshCollector.record_call 1 1 1).estimate_cost ≥
      cfg_ten_thousandth.max_cost_usd := by
    have hval : (freshCollector.record_call 1 1 1).estimate_cost =
        ((1 : ℕ) : ℚ) / 1000000 * (375 / 1000) := by
      unfold MetricsCollector.estimate_cost
      rw [htt, if_neg (by omega)]
    show ¬ (freshCollector.record_call 1 1 1).estimate_cost ≥ (1 : ℚ) / 10000
    rw [hval]
    norm_num
  have hrun : run_tasks cfg_ten_thousandth.max_cost_usd
      (fun _ => CallOutcome.ok 1 1 1) 0 ["t0", "t1"] freshCollector [] =
      .completed ((freshCollector.record_call 1 1 1).record_call 1 1 1)
        (([] ++ [.ok "t0" 1 1]) ++ [.ok "t1" 1 1]) := by
    rw [run_tasks_step_ok _ _ _ _ _ _ _ _ _ _ hc0 rfl,
      run_tasks_step_ok _ _ _ _ _ _ _ _ _ _ hc1 rfl]
    simp only [run_tasks]
  rw [run_scenario_completed_eq _ _ _ _ _ _ _ _ hrun]
  exact ⟨rfl, rfl⟩

/-- C2: a task whose call raises has the exception caught and recorded as a
failed log entry (`success = False`, carrying the error string); the loop
continues with the remaining tasks from an unchanged collector, consuming
exactly one oracle outcome for the task (no retry); no exception propagates
— the loop returns through its ordinary `LoopOut` channel. -/
theorem call_failure_swallowed (max_cost_usd : ℚ) (orc : ℕ → CallOutcome)
    (i : ℕ) (task : String) (rest : List String) (m : MetricsCollector)
    (logs : List CallLogEntry) (e : String)
    (hc : ¬ m.estimate_cost ≥ max_cost_usd) (horc : orc i = .exn e) :
    run_tasks max_cost_usd orc i (task :: rest) m logs =
      run_tasks max_cost_usd orc (i + 1) rest m (logs ++ [.failed task e]) ∧
      (CallLogEntry.failed task e).success = false :=
  ⟨run_tasks_step_exn max_cost_usd orc i task rest m logs e hc horc, rfl⟩

/-- C2 witness: a raising call at index 0 of a two-task run. -/
theorem call_failure_swallowed_witness :
    run_tasks 1 (fun _ => CallOutcome.exn "boom") 0 ["t", "u"]
        freshCollector [] =
      run_tasks 1 (fun _ => CallOutcome.exn "boom") 1 ["u"] freshCollector
        ([] ++ [.failed "t" "boom"]) ∧
      (CallLogEntry.failed "t" "boom").success = false :=
  call_failure_swallowed 1 (fun _ => CallOutcome.exn "boom") 0 "t" ["u"]
    freshCollector [] "boom"
    (by norm_num [freshCollector, MetricsCollector.estimate_cost]) rfl

/-- C9: whenever the cost ceiling is never reached at a pre-call check (the
loop runs to completion), `run_scenario` returns `success = True` and
`total_calls` equal to the full number of tasks — even if every individual
call raised — while the collector's own `total_calls` counter has grown
only by the number of successful calls. -/
theorem completed_success_full_count (cfg : ValidationConfig)
    (tasks : List String) (orc : ℕ → CallOutcome)
    (final_dir : Option (List FileEntry)) (t : ℚ) (m m' : MetricsCollector)
    (logs' : List CallLogEntry)
    (h : run_tasks cfg.max_cost_usd orc 0 tasks m [] = .completed m' logs') :
    (run_scenario cfg tasks none orc final_dir t m).1.success = true ∧
      (run_scenario cfg tasks none orc final_dir t m).1.total_calls =
        tasks.length ∧
      m'.total_calls = m.total_calls + numOk orc 0 tasks.length := by
  rw [run_scenario_completed_eq cfg tasks orc final_dir t m m' logs' h]
  exact ⟨rfl, rfl,
    run_tasks_completed_total_calls cfg.max_cost_usd orc tasks 0 m [] m'
      logs' h⟩

/-- C9 witness: one task whose call raises; the run still succeeds with the
full count while the collector's counter stays at zero. -/
theorem completed_success_full_count_witness :
    (run_scenario {} ["a"] none (fun _ => CallOutcome.exn "boom") none 0
        freshCollector).1.success = true ∧
      (run_scenario {} ["a"] none (fun _ => CallOutcome.exn "boom") none 0
          freshCollector).1.total_calls = ["a"].length ∧
      freshCollector.total_calls =
        freshCollector.total_calls +
          numOk (fun _ => CallOutcome.exn "boom") 0 ["a"].length :=
  completed_success_full_count {} ["a"] (fun _ => CallOutcome.exn "boom")
    none 0 freshCollector freshCollector [.failed "a" "boom"] (by decide)
